import Mathlib

/-!
# Verification of the gitlab-workhorse upload pipeline

A shallow embedding, in Lean 4, of the upload pipeline of this repository:
the `filestore` package (`SaveFileOpts`, `GetOpts`, `SaveFileFromReader`)
and the `objectstore` package (single-PUT `Object`, `Multipart`, `S3Object`).

Modelling conventions:
* byte streams are `List Nat` (each entry one byte);
* Go `int64` values (sizes, timeouts, deadlines) are `Int`;
* Go `map[string]string` values are association lists `List (String × String)`;
* the MD5 digest function from `crypto/md5` (an external library) is an
  abstract parameter `md5 : List Nat → List Nat`; hex encoding is concrete;
* the HTTP responses observed by the uploaders are environment inputs
  (`PutResponse`, `CompleteHTTP`); a `none`/`transportError` models a failed
  round trip;
* goroutines that wait on contexts are modelled by explicit phases
  (`CleanupPhase`) or by abstract completion times (`Nat`).
-/

namespace Workhorse

/-- A single byte of the streamed body. -/
abbrev Byte := Nat

/-! ## String helpers used by the uploaders -/

/-- ASCII lower-casing of one character (the strings the pipeline compares
are hex digests and ETags). -/
def lowerChar (c : Char) : Char :=
  if 65 ≤ c.toNat ∧ c.toNat ≤ 90 then Char.ofNat (c.toNat + 32) else c

/-- Embeds Go `strings.EqualFold` restricted to the strings the pipeline
compares (hex digests and ETags): case-insensitive equality. -/
def equalFold (a b : String) : Bool :=
  a.data.map lowerChar == b.data.map lowerChar

/-- Lower-case hex digit for a nibble. -/
def hexDigit (n : Nat) : Char :=
  if n < 10 then Char.ofNat (48 + n) else Char.ofNat (87 + n)

/-- Embeds `hex.EncodeToString`: lower-case hex encoding of a byte list. -/
def hexEncode (bs : List Byte) : String :=
  String.mk (bs.foldr (fun b acc => hexDigit (b / 16 % 16) :: hexDigit (b % 16) :: acc) [])

/-- Value of one hex digit, or `none` if the character is not a hex digit. -/
def hexDigitVal (c : Char) : Option Nat :=
  if 48 ≤ c.toNat ∧ c.toNat ≤ 57 then some (c.toNat - 48)
  else if 97 ≤ c.toNat ∧ c.toNat ≤ 102 then some (c.toNat - 87)
  else if 65 ≤ c.toNat ∧ c.toNat ≤ 70 then some (c.toNat - 55)
  else none

/-- Embeds `hex.DecodeString` on a list of characters: pairs of hex digits. -/
def hexDecodeChars : List Char → Option (List Byte)
  | [] => some []
  | [_] => none
  | c₁ :: c₂ :: rest =>
    match hexDigitVal c₁, hexDigitVal c₂, hexDecodeChars rest with
    | some h, some l, some bs => some ((16 * h + l) :: bs)
    | _, _, _ => none

/-- Embeds `hex.DecodeString`: decode a hex string to bytes. -/
def hexDecode (s : String) : Option (List Byte) :=
  hexDecodeChars s.data

/-! ## Errors of the pipeline

Shallow embedding of the Go error values produced by `filestore` and
`objectstore`. Each constructor stands for one error kind of the source. -/

/-- The error values the upload pipeline can produce. -/
inductive UploadError where
  /-- `filestore.SizeError`: declared size vs observed byte count. -/
  | sizeError (expected observed : Int)
  /-- `filestore.ErrEntityTooLarge`. -/
  | entityTooLarge
  /-- `objectstore.ErrNotEnoughParts`. -/
  | notEnoughParts
  /-- `objectstore.StatusCodeError` carrying the response status. -/
  | statusCodeError (status : Nat)
  /-- `compareMD5` mismatch: "ETag mismatch. expected %q got %q". -/
  | etagMismatch (expected got : String)
  /-- A failed HTTP round trip (`httpClient.Do` returned an error). -/
  | transportError (msg : String)
  /-- CompleteMultipartUpload POST / decoding failures. -/
  | completeError (msg : String)
  /-- "missing upload destination" from `SaveFileFromReader`. -/
  | missingDestination
  /-- Failure to create the local temporary file (`uploadLocalFile`). -/
  | localFileError (msg : String)
  /-- An error while uploading part number `n` ("upload part %d: %v"). -/
  | partUploadError (n : Nat) (msg : UploadError)
  deriving DecidableEq, Repr

/-- Embeds `compareMD5` from `object.go`: case-insensitive comparison of the
local digest with the remote ETag, `none` on success. -/
def compareMD5 (localSum remote : String) : Option UploadError :=
  if equalFold localSum remote then none
  else some (.etagMismatch localSum remote)

/-- Embeds `uploader.extractETag`: strip the surrounding quotes (the first and
last byte) when the raw header value starts with a double quote. -/
def extractETag (rawETag : String) : String :=
  match rawETag.data with
  | [] => rawETag
  | c :: cs => if c = '"' then String.mk cs.dropLast else rawETag

/-! ## Single-PUT uploader (`objectstore.Object`, `newObject`) -/

/-- The response of a presigned PUT as observed by the uploader goroutine:
HTTP status plus the raw `ETag` header. -/
structure PutResponse where
  status : Nat
  etagHeader : String
  deriving DecidableEq, Repr

/-- Result of the `newObject` upload goroutine: the recorded `uploadError`
(if any) and the recorded `etag` field. -/
structure ObjectResult where
  uploadError : Option UploadError := none
  etag : String := ""
  deriving DecidableEq, Repr

/-- Embeds the upload goroutine of `newObject` (object.go): a `none` response
is a failed round trip; a status other than `http.StatusOK` records a
`StatusCodeError`; on 200 the ETag header is recorded (quotes stripped) and,
unless `skipETagVerify` is set, compared against the local MD5 hex digest. -/
def objectUpload (skipETagVerify : Bool) (localMD5 : String)
    (resp : Option PutResponse) : ObjectResult :=
  match resp with
  | none => { uploadError := some (.transportError "PUT request failed") }
  | some r =>
    if r.status ≠ 200 then
      { uploadError := some (.statusCodeError r.status) }
    else
      let etag := extractETag r.etagHeader
      if skipETagVerify then { etag := etag }
      else { uploadError := compareMD5 localMD5 etag, etag := etag }

/-! ## Multipart uploader (`objectstore.Multipart`, multipart.go) -/

/-- One `<Part>` entry of the `CompleteMultipartUpload` XML document:
1-based part number plus the ETag returned by the part PUT. -/
structure CMUPart where
  partNumber : Nat
  etag : String
  deriving DecidableEq, Repr

/-- Trace record of one part PUT performed by the multipart loop: part number,
target URL, the bytes buffered (on a temporary file) and sent, and the ETag
the server returned. -/
structure PartPut where
  partNumber : Nat
  url : String
  content : List Byte
  etag : String
  deriving DecidableEq, Repr

/-- Environment of a multipart session: the PUT response for each 1-based part
number. `none` models a failed round trip. -/
def PartEnv := Nat → Option PutResponse

/-- Embeds `Multipart.uploadPart`: a part is uploaded through an internal
`newObject` (metrics disabled) with the session's `SkipETagVerify` forwarded;
the part's local MD5 is the digest of the buffered content. Returns the
part's ETag, or the internal uploader's error. -/
def uploadPart (md5 : List Byte → List Byte) (skipETagVerify : Bool)
    (content : List Byte) (resp : Option PutResponse) : Except UploadError String :=
  let r := objectUpload skipETagVerify (hexEncode (md5 content)) resp
  match r.uploadError with
  | some e => .error e
  | none => .ok r.etag

/-- Embeds the part loop of the `NewMultipart` goroutine together with
`Multipart.readAndUploadOnePart`: for each part URL, up to `partSize` bytes
are read from the pipe into a temporary buffer file; a zero-byte read ends
the loop; otherwise the buffer is PUT to the URL and the returned ETag is
recorded with the 1-based part number. Returns the trace of performed part
PUTs and the bytes left unread by the loop. -/
def multipartLoop (md5 : List Byte → List Byte) (skipETagVerify : Bool)
    (env : PartEnv) (partSize : Nat) :
    List String → List Byte → Nat → Except UploadError (List PartPut × List Byte)
  | [], rest, _ => .ok ([], rest)
  | partURL :: urls, rest, i =>
    let content := rest.take partSize
    if content.isEmpty then .ok ([], rest)
    else
      match uploadPart md5 skipETagVerify content (env i) with
      | .error e => .error (.partUploadError i e)
      | .ok etag =>
        match multipartLoop md5 skipETagVerify env partSize urls (rest.drop partSize) (i + 1) with
        | .error e => .error e
        | .ok (parts, leftover) =>
          .ok ({ partNumber := i, url := partURL, content := content, etag := etag } :: parts, leftover)

/-- Body of the CompleteMultipartUpload POST response, as decoded by
`compoundCompleteMultipartUploadResult`. -/
inductive CompleteBody where
  /-- The XML decoder failed. -/
  | decodeError (msg : String)
  /-- The body decoded to an `<Error>` root element (`result.isError()`). -/
  | errorShape (msg : String)
  /-- Decoding succeeded but no `CompleteMultipartUploadResult` was present. -/
  | empty
  /-- A proper `CompleteMultipartUploadResult` carrying the remote ETag. -/
  | result (etag : String)
  deriving DecidableEq, Repr

/-- Outcome of the CompleteMultipartUpload POST round trip. -/
inductive CompleteHTTP where
  /-- `httpClient.Do` returned an error. -/
  | transportError (msg : String)
  /-- A response with the given status and decoded body. -/
  | resp (status : Nat) (body : CompleteBody)
  deriving DecidableEq, Repr

/-- Modelled from the spec: `CompleteMultipartUpload.BuildMultipartUploadETag`
is not under `src/`. Per §4.4 of the spec, the composite ETag of a multipart
object is `hex(md5(concat(md5(part_1), …, md5(part_N)))) + "-" + N`, computed
from the locally recorded part digests (the recorded part ETags, hex-decoded);
a part ETag that is not valid hex makes the computation fail. -/
def buildMultipartUploadETag (md5 : List Byte → List Byte)
    (parts : List CMUPart) : Except UploadError String :=
  match (parts.map (fun p => hexDecode p.etag)).allSome with
  | none => .error (.completeError "invalid part ETag")
  | some digests =>
    .ok (hexEncode (md5 digests.flatten) ++ "-" ++ toString parts.length)

/-- Embeds `Multipart.verifyETag`: skipped entirely when `SkipETagVerify` is
set; otherwise the composite checksum built from the recorded parts is
compared (case-insensitively) against the recorded remote ETag. -/
def verifyETag (md5 : List Byte → List Byte) (skipETagVerify : Bool)
    (parts : List CMUPart) (etag : String) : Option UploadError :=
  if skipETagVerify then none
  else
    match buildMultipartUploadETag md5 parts with
    | .error e => some e
    | .ok expectedChecksum => compareMD5 expectedChecksum etag

/-- Result of `Multipart.complete`: the error (if any) plus the recorded
remote ETag. -/
structure CompleteResult where
  uploadError : Option UploadError := none
  etag : String := ""
  deriving DecidableEq, Repr

/-- Embeds `Multipart.complete`: POST the `CompleteMultipartUpload` document;
fail on a transport error, a status other than 200, a decoding failure, an
`<Error>`-shaped body, or an empty result; otherwise record the remote ETag
(quotes stripped) and run `verifyETag`. -/
def multipartComplete (md5 : List Byte → List Byte) (skipETagVerify : Bool)
    (parts : List CMUPart) (http : CompleteHTTP) : CompleteResult :=
  match http with
  | .transportError msg => { uploadError := some (.completeError msg) }
  | .resp status body =>
    if status ≠ 200 then
      { uploadError := some (.completeError "CompleteMultipartUpload returned status") }
    else
      match body with
      | .decodeError msg => { uploadError := some (.completeError msg) }
      | .errorShape msg => { uploadError := some (.completeError msg) }
      | .empty => { uploadError := some (.completeError "empty CompleteMultipartUploadResult") }
      | .result rawETag =>
        let etag := extractETag rawETag
        { uploadError := verifyETag md5 skipETagVerify parts etag, etag := etag }

/-- Result of the whole `NewMultipart` upload goroutine. `copyError` is the
error surfaced to the tee's `io.Copy` through `pr.CloseWithError` while bytes
were still unread (a part failure); `uploadError` is the goroutine's recorded
error as observed by `Close`; `etag` is the recorded remote ETag. -/
structure MultipartResult where
  trace : List PartPut := []
  copyError : Option UploadError := none
  uploadError : Option UploadError := none
  etag : String := ""
  deriving DecidableEq, Repr

/-- Embeds the `NewMultipart` goroutine: run the part loop over the body; on a
part error the pipe is closed with that error (failing the upstream copy);
otherwise drain the pipe — any remaining byte means the caller sent more than
`part_size × len(part_urls)` and the goroutine records `ErrNotEnoughParts`;
otherwise POST the completion document and verify the composite ETag. -/
def multipartRun (md5 : List Byte → List Byte) (skipETagVerify : Bool)
    (env : PartEnv) (completeHTTP : CompleteHTTP) (partURLs : List String)
    (partSize : Nat) (body : List Byte) : MultipartResult :=
  match multipartLoop md5 skipETagVerify env partSize partURLs body 1 with
  | .error e => { copyError := some e, uploadError := some e }
  | .ok (trace, leftover) =>
    if leftover.length > 0 then
      { trace := trace, uploadError := some .notEnoughParts }
    else
      let cmu := trace.map (fun p => { partNumber := p.partNumber, etag := p.etag : CMUPart })
      let c := multipartComplete md5 skipETagVerify cmu completeHTTP
      { trace := trace, uploadError := c.uploadError, etag := c.etag }

/-! ## Cleanup (`Multipart.cleanup`, `S3Object.cleanup`)

The cleanup goroutines first wait for the upload context, then possibly for
the outer request context. The waits are modelled by tagging each issued
DELETE with the phase in which it happens. -/

/-- The phase of the cleanup goroutine in which an HTTP DELETE is issued. -/
inductive CleanupPhase where
  /-- After the upload context is done (upload finished). -/
  | afterUploadDone
  /-- After the outer request context is cancelled as well. -/
  | afterOuterCtxDone
  deriving DecidableEq, Repr

/-- A DELETE issued during cleanup: target URL and issuing phase. -/
structure HttpDelete where
  url : String
  phase : CleanupPhase
  deriving DecidableEq, Repr

/-- Modelled from the spec: `uploader.syncAndDelete` is not under `src/`. Per
§4.3 of the spec, cleanup issues a DELETE to the given URL (if set) on an
independent 60-second context. Modelled as the list of DELETEs issued. -/
def syncAndDelete (url : String) (phase : CleanupPhase) : List HttpDelete :=
  if url = "" then [] else [{ url := url, phase := phase }]

/-- Embeds `Multipart.cleanup` (multipart.go): wait for the upload to finish;
if the upload recorded an error, call `abort` (DELETE to `AbortURL`) and
return; otherwise wait for the outer request context and call `delete`
(DELETE to `DeleteURL`). -/
def multipartCleanup (abortURL deleteURL : String)
    (uploadError : Option UploadError) : List HttpDelete :=
  match uploadError with
  | some _ => syncAndDelete abortURL .afterUploadDone
  | none => syncAndDelete deleteURL .afterOuterCtxDone

/-! ## Native S3 uploader (`objectstore.S3Object`, s3_object.go)

The cleanup goroutine is modelled over abstract completion times: `tUpload`
is the instant the upload goroutine finishes (the upload context is done),
`tOuterCancel` the instant the outer request context is cancelled (`none` if
it never is). -/

/-- Embeds the guard of `S3Object.delete`: the DeleteObject call is issued
only when a session was established and an object name recorded. -/
def s3DeleteIssuable (hasSession : Bool) (objectName : String) : Bool :=
  hasSession && objectName ≠ ""

/-- Embeds `S3Object.cleanup` and `S3Object.delete`: wait for the upload to
finish; if it failed, delete the stored object right away; otherwise wait for
the outer request context to cancel, then delete. Returns the time at which
the DeleteObject call is issued, or `none` when it never is. -/
def s3Cleanup (hasSession : Bool) (objectName : String)
    (uploadError : Option UploadError) (tUpload : Nat) (tOuterCancel : Option Nat) :
    Option Nat :=
  if s3DeleteIssuable hasSession objectName then
    match uploadError with
    | some _ => some tUpload
    | none => tOuterCancel.map (fun t => max tUpload t)
  else none

/-! ## Upload options (`filestore.SaveFileOpts`, save_file_opts.go) -/

/-- Embeds `config.S3Config` (config.go). -/
structure S3Config where
  awsAccessKeyID : String := ""
  awsSecretAccessKey : String := ""
  region : String := ""
  bucket : String := ""
  pathStyle : Bool := false
  endpoint : String := ""
  deriving DecidableEq, Repr

/-- Modelled from the spec: `config.S3Credentials` is referenced by
`save_file_opts.go` but its definition is not under `src/`; per §3 of the
spec the native-client credentials are an access key and a secret key. -/
structure S3Credentials where
  awsAccessKeyID : String := ""
  awsSecretAccessKey : String := ""
  deriving DecidableEq, Repr

/-- Embeds `filestore.ObjectStorageConfig` (save_file_opts.go). -/
structure ObjectStorageConfig where
  provider : String := ""
  s3Credentials : S3Credentials := {}
  s3Config : S3Config := {}
  deriving DecidableEq, Repr

/-- Embeds `ObjectStorageConfig.IsValid`. -/
def ObjectStorageConfig.IsValid (c : ObjectStorageConfig) : Bool :=
  c.s3Config.bucket ≠ "" && c.s3Config.region ≠ ""

/-- Embeds `ObjectStorageConfig.IsAWS`. -/
def ObjectStorageConfig.IsAWS (c : ObjectStorageConfig) : Bool :=
  equalFold c.provider "AWS" || equalFold c.provider "S3"

/-- Embeds `filestore.SaveFileOpts` (save_file_opts.go). The struct carries
exactly the fields of the source; in particular it has no skip-ETag-verify
field. `tempFilePrefixStr` embeds the source field `TempFilePrefix` (renamed
only for Lean surface reasons). -/
structure SaveFileOpts where
  tempFilePrefixStr : String := ""
  localTempPath : String := ""
  remoteID : String := ""
  remoteURL : String := ""
  presignedPut : String := ""
  presignedDelete : String := ""
  putHeaders : List (String × String) := []
  useWorkhorseClient : Bool := false
  remoteTempObjectID : String := ""
  objectStorageConfig : ObjectStorageConfig := {}
  deadline : Int := 0
  partSize : Int := 0
  presignedParts : List String := []
  presignedCompleteMultipart : String := ""
  presignedAbortMultipart : String := ""
  deriving DecidableEq, Repr

/-- Embeds `SaveFileOpts.UseWorkhorseClientEnabled`. -/
def SaveFileOpts.UseWorkhorseClientEnabled (s : SaveFileOpts) : Bool :=
  s.useWorkhorseClient && s.objectStorageConfig.IsValid && s.remoteTempObjectID ≠ ""

/-- Embeds `SaveFileOpts.IsLocal`. -/
def SaveFileOpts.IsLocal (s : SaveFileOpts) : Bool :=
  s.localTempPath ≠ ""

/-- Embeds `SaveFileOpts.IsMultipart`. -/
def SaveFileOpts.IsMultipart (s : SaveFileOpts) : Bool :=
  s.partSize > 0

/-- Embeds `SaveFileOpts.IsRemote`. -/
def SaveFileOpts.IsRemote (s : SaveFileOpts) : Bool :=
  s.presignedPut ≠ "" || s.IsMultipart

/-! ## `filestore.GetOpts` and the api response it reads

The `api` package is not under `src/`; the response record is modelled from
the spec (§3, §4.8) and shaped by the fields `GetOpts` reads. -/

/-- Modelled from the spec: the `MultipartUploadParams` of an api response —
`part_size`, ordered part URLs, complete URL, abort URL (§3). -/
structure ApiMultipartUploadParams where
  partSize : Int := 0
  partURLs : List String := []
  completeURL : String := ""
  abortURL : String := ""
  deriving DecidableEq, Repr

/-- Modelled from the spec: the `ObjectStorage` parameters of an api
response — provider plus S3 config (§3). -/
structure ApiObjectStorageParams where
  provider : String := ""
  s3Config : S3Config := {}
  deriving DecidableEq, Repr

/-- Modelled from the spec: the `RemoteObject` part of an api response, with
exactly the fields `GetOpts` reads. -/
structure ApiRemoteObject where
  id : String := ""
  getURL : String := ""
  storeURL : String := ""
  deleteURL : String := ""
  putHeaders : List (String × String) := []
  customPutHeaders : Bool := false
  useWorkhorseClient : Bool := false
  remoteTempObjectID : String := ""
  timeout : Int := 0
  multipartUpload : Option ApiMultipartUploadParams := none
  objectStorage : Option ApiObjectStorageParams := none
  deriving DecidableEq, Repr

/-- Modelled from the spec: an `api.Response`, restricted to the fields
`GetOpts` reads. -/
structure ApiResponse where
  tempPath : String := ""
  remoteObject : ApiRemoteObject := {}
  deriving DecidableEq, Repr

/-- Embeds `DefaultObjectStoreTimeout = 4 * time.Hour`, in seconds. -/
def DefaultObjectStoreTimeout : Int := 4 * 3600

/-- Embeds `filestore.GetOpts`, with `now` the current time in seconds (the
source's `time.Now()`): the timeout defaults to `DefaultObjectStoreTimeout`
when zero; the deadline is `now + timeout`; the put headers are replaced by
`Content-Type: application/octet-stream` when the response did not declare
custom headers; multipart parameters are copied when present. -/
def GetOpts (apiResponse : ApiResponse) (now : Int) : SaveFileOpts :=
  let ro := apiResponse.remoteObject
  let timeout := if ro.timeout = 0 then DefaultObjectStoreTimeout else ro.timeout
  let osc : ObjectStorageConfig :=
    match ro.objectStorage with
    | some p => if ro.useWorkhorseClient then { provider := p.provider, s3Config := p.s3Config } else {}
    | none => {}
  let base : SaveFileOpts :=
    { localTempPath := apiResponse.tempPath
      remoteID := ro.id
      remoteURL := ro.getURL
      presignedPut := ro.storeURL
      presignedDelete := ro.deleteURL
      putHeaders := if ro.customPutHeaders then ro.putHeaders
                    else [("Content-Type", "application/octet-stream")]
      useWorkhorseClient := ro.useWorkhorseClient
      remoteTempObjectID := ro.remoteTempObjectID
      objectStorageConfig := osc
      deadline := now + timeout }
  match ro.multipartUpload with
  | none => base
  | some mp =>
    { base with
      partSize := mp.partSize
      presignedCompleteMultipart := mp.completeURL
      presignedAbortMultipart := mp.abortURL
      presignedParts := mp.partURLs }

/-! ## `filestore.SaveFileFromReader` (file_handler.go) -/

/-- Embeds `filestore.FileHandler`. -/
structure FileHandler where
  localPath : String := ""
  remoteID : String := ""
  remoteURL : String := ""
  size : Int := 0
  name : String := ""
  hashes : List (String × String) := []
  deriving DecidableEq, Repr

/-- Which remote sink `SaveFileFromReader` constructs. The source offers only
these two: the multipart session and the presigned single PUT; it never
builds the native S3 uploader. -/
inductive RemoteKind where
  | multipart
  | singlePut
  deriving DecidableEq, Repr

/-- The remote-sink selection of `SaveFileFromReader` (file_handler.go
117–131): the multipart branch when `IsMultipart`, else the single-PUT branch
when `IsRemote`, else no remote sink. -/
def remoteKindOf (opts : SaveFileOpts) : Option RemoteKind :=
  if opts.IsMultipart then some .multipart
  else if opts.IsRemote then some .singlePut
  else none

/-- Environment of one `SaveFileFromReader` call: the HTTP responses the
remote uploaders observe and the outcome of creating the local temp file. -/
structure SaveEnv where
  putResp : Option PutResponse := none
  partResp : PartEnv := fun _ => none
  completeHTTP : CompleteHTTP := .transportError ""
  localCreateError : Option String := none
  localPath : String := ""

/-- Outcome of the remote sink over the whole body: the error surfaced to the
tee copy (if any), the error returned by `Close`, and the remote ETag. -/
structure RemoteOutcome where
  copyError : Option UploadError := none
  closeError : Option UploadError := none
  etag : String := ""
  deriving DecidableEq, Repr

/-- Runs the selected remote sink of `SaveFileFromReader` over the body.
For the multipart session this is the `NewMultipart` goroutine; for the
single PUT it is the `newObject` goroutine, whose local MD5 is the digest of
everything written through the pipe (the whole body), and whose error is
observed at `Close`. -/
def remoteOutcome (md5 : List Byte → List Byte) (skipETagVerify : Bool)
    (env : SaveEnv) (opts : SaveFileOpts) (body : List Byte) :
    Option RemoteOutcome :=
  match remoteKindOf opts with
  | some .multipart =>
    let r := multipartRun md5 skipETagVerify env.partResp env.completeHTTP
      opts.presignedParts opts.partSize.toNat body
    some { copyError := r.copyError, closeError := r.uploadError, etag := r.etag }
  | some .singlePut =>
    let r := objectUpload skipETagVerify (hexEncode (md5 body)) env.putResp
    some { closeError := r.uploadError, etag := r.etag }
  | none => none

/-- The `newMultiHash` sink is not under `src/`; modelled from the spec
(§4.1): a lower-case hex digest map. Only the digests the claims mention are
kept (`md5`, `sha256`). -/
def multiHashFinish (md5 sha256 : List Byte → List Byte) (body : List Byte) :
    List (String × String) :=
  [("md5", hexEncode (md5 body)), ("sha256", hexEncode (sha256 body))]

/-- Embeds `filestore.SaveFileFromReader`. The Go function receives the
skip-ETag-verify flag nowhere (`SaveFileOpts` has no such field) although the
`objectstore` constructors it calls require one; the flag is therefore an
explicit parameter of the embedding. Steps, in source order: construct the
remote writer (multipart before single PUT), create the local file, reject a
call with no destination, copy the body to every sink, enforce the declared
size, collect the hashes, close the remote writer — mapping
`ErrNotEnoughParts` to `ErrEntityTooLarge` — and record the remote ETag. -/
def saveFileFromReader (md5 sha256 : List Byte → List Byte)
    (skipETagVerify : Bool) (env : SaveEnv) (opts : SaveFileOpts)
    (size : Int) (body : List Byte) : Except UploadError FileHandler :=
  if opts.IsLocal ∧ env.localCreateError.isSome then
    .error (.localFileError (env.localCreateError.getD ""))
  else if (remoteOutcome md5 skipETagVerify env opts body).isNone ∧ ¬opts.IsLocal then
    .error .missingDestination
  else
    match remoteOutcome md5 skipETagVerify env opts body with
    | some ro =>
      (match ro.copyError with
      | some e => .error e
      | none =>
        if size ≠ -1 ∧ size ≠ (body.length : Int) then
          .error (.sizeError size body.length)
        else
          match ro.closeError with
          | some .notEnoughParts => .error .entityTooLarge
          | some e => .error e
          | none =>
            .ok { localPath := if opts.IsLocal then env.localPath else ""
                  remoteID := opts.remoteID
                  remoteURL := opts.remoteURL
                  size := (body.length : Int)
                  name := opts.tempFilePrefixStr
                  hashes := multiHashFinish md5 sha256 body ++ [("etag", ro.etag)] })
    | none =>
      if size ≠ -1 ∧ size ≠ (body.length : Int) then
        .error (.sizeError size body.length)
      else
        .ok { localPath := if opts.IsLocal then env.localPath else ""
              remoteID := opts.remoteID
              remoteURL := opts.remoteURL
              size := (body.length : Int)
              name := opts.tempFilePrefixStr
              hashes := multiHashFinish md5 sha256 body }

/-- The tee copy of one `SaveFileFromReader` call completes (all sinks accept
every byte): the local temp file was created when requested, at least one
destination besides the hash sink exists, and the remote sink surfaced no
error to the copy. -/
def copyCompletes (md5 : List Byte → List Byte) (skipETagVerify : Bool)
    (env : SaveEnv) (opts : SaveFileOpts) (body : List Byte) : Bool :=
  (!(opts.IsLocal && env.localCreateError.isSome)) &&
  ((remoteOutcome md5 skipETagVerify env opts body).isSome || opts.IsLocal) &&
  (match remoteOutcome md5 skipETagVerify env opts body with
   | some ro => ro.copyError == none
   | none => true)

/-- The slice of the body that part number `k+1` (0-based `k`) carries:
bytes `k·p` up to `min((k+1)·p, n)`. -/
def partSliceAt (p : Nat) (body : List Byte) (k : Nat) : List Byte :=
  (body.drop (k * p)).take p

/-- The part PUT the multipart loop is expected to perform at 0-based index
`k` when started at part number `i₀`: slice `k` of the body, sent to the
`k`-th part URL, with the ETag the environment returns for it. -/
def expectedPartPut (md5 : List Byte → List Byte) (skipETagVerify : Bool)
    (env : PartEnv) (urls : List String) (p : Nat) (body : List Byte)
    (i₀ k : Nat) : PartPut :=
  { partNumber := i₀ + k
    url := urls.getD k ""
    content := partSliceAt p body k
    etag :=
      match uploadPart md5 skipETagVerify (partSliceAt p body k) (env (i₀ + k)) with
      | .ok etag => etag
      | .error _ => "" }

/-- The full expected trace of the multipart loop: `⌈n/p⌉` part PUTs, the
`k`-th carrying slice `k`. -/
def expectedTrace (md5 : List Byte → List Byte) (skipETagVerify : Bool)
    (env : PartEnv) (urls : List String) (p : Nat) (body : List Byte)
    (i₀ : Nat) : List PartPut :=
  (List.range ((body.length + p - 1) / p)).map
    (expectedPartPut md5 skipETagVerify env urls p body i₀)

/-! ## Theorems -/

/-- C9: for every api response, `GetOpts` returns options whose deadline is
`now` plus the response timeout in seconds (defaulting to 4 hours when the
timeout is zero) and whose put headers are exactly
`Content-Type: application/octet-stream` when the response did not declare
custom headers, and the response's headers unchanged otherwise. -/
theorem GetOpts_deadline_and_headers (a : ApiResponse) (now : Int) :
    (GetOpts a now).deadline
      = now + (if a.remoteObject.timeout = 0 then DefaultObjectStoreTimeout
               else a.remoteObject.timeout) ∧
    (GetOpts a now).putHeaders
      = (if a.remoteObject.customPutHeaders then a.remoteObject.putHeaders
         else [("Content-Type", "application/octet-stream")]) := by
  unfold GetOpts
  cases h : a.remoteObject.multipartUpload <;> simp [h]

/-- C7 counterexample: a failed multipart upload with both the abort and the
delete URL set issues only the abort DELETE; `Multipart.cleanup` returns
right after `abort()` and never invokes the delete URL on the failure path,
contrary to the claim. -/
theorem multipart_cleanup_missing_delete_counterexample :
    multipartCleanup "https://abort" "https://delete" (some .notEnoughParts)
      = [{ url := "https://abort", phase := .afterUploadDone }] ∧
    "https://delete" ∉
      (multipartCleanup "https://abort" "https://delete" (some .notEnoughParts)).map
        HttpDelete.url := by
  decide

/-- C7 (amended): on a non-nil upload error the multipart uploader issues a
DELETE to the abort URL (if set) and nothing else — in particular the delete
URL is not invoked; on the success path the delete URL (if set) is invoked
only after the outer request context is cancelled. -/
theorem multipart_cleanup_abort_or_delete (abortURL deleteURL : String)
    (e : UploadError) :
    multipartCleanup abortURL deleteURL (some e)
      = (if abortURL = "" then []
         else [{ url := abortURL, phase := .afterUploadDone }]) ∧
    multipartCleanup abortURL deleteURL none
      = (if deleteURL = "" then []
         else [{ url := deleteURL, phase := .afterOuterCtxDone }]) :=
  ⟨rfl, rfl⟩

/-- C3 counterexample: a PUT answered with the 2xx success status 204 and an
ETag matching the local MD5 still fails: `newObject` records a
`StatusCodeError` for every status other than exactly 200, contrary to the
claim's "if the status is a success … the upload succeeds". -/
theorem newObject_2xx_not_ok_counterexample :
    (200 ≤ 204 ∧ 204 < 300) ∧
    equalFold "ab" (extractETag "\"AB\"") = true ∧
    (objectUpload false "ab" (some { status := 204, etagHeader := "\"AB\"" })).uploadError
      = some (.statusCodeError 204) := by
  decide

/-- C3 (amended): for every single-PUT upload, a response status other than
exactly 200 records a `StatusCodeError` carrying that status and the upload
fails; on status 200 with `skip_etag_verify` false the upload succeeds if and
only if the quote-stripped remote ETag equals the local MD5 hex digest
case-insensitively. -/
theorem newObject_status_and_etag (skipETagVerify : Bool) (localMD5 : String)
    (r : PutResponse) :
    (r.status ≠ 200 →
      (objectUpload skipETagVerify localMD5 (some r)).uploadError
        = some (.statusCodeError r.status)) ∧
    (r.status = 200 → skipETagVerify = false →
      ((objectUpload skipETagVerify localMD5 (some r)).uploadError = none
        ↔ equalFold localMD5 (extractETag r.etagHeader) = true)) := by
  constructor
  · intro h
    simp [objectUpload, h]
  · intro h hskip
    subst hskip
    simp only [objectUpload, h, compareMD5]
    split <;> simp_all

/-- Witness for the C3 theorem at concrete inputs: status 500 records the
status error; status 200 with a matching quoted upper-case ETag succeeds. -/
theorem newObject_status_and_etag_witness :
    (objectUpload false "ab" (some { status := 500, etagHeader := "x" })).uploadError
      = some (.statusCodeError 500) ∧
    ((objectUpload false "ab" (some { status := 200, etagHeader := "\"AB\"" })).uploadError = none
      ↔ equalFold "ab" (extractETag "\"AB\"") = true) :=
  ⟨(newObject_status_and_etag false "ab" { status := 500, etagHeader := "x" }).1 (by decide),
   (newObject_status_and_etag false "ab" { status := 200, etagHeader := "\"AB\"" }).2 rfl rfl⟩

/-- C8: for every native S3 upload whose stored object exists (a session was
established and an object name recorded), the cleanup goroutine deletes the
object exactly when the upload failed or, after a successful upload, when the
outer request context is cancelled; and the delete is never issued before the
upload goroutine has finished. -/
theorem s3_cleanup_delete_iff (hasSession : Bool) (objectName : String)
    (uploadError : Option UploadError) (tUpload : Nat) (tOuterCancel : Option Nat)
    (hobj : s3DeleteIssuable hasSession objectName = true) :
    ((s3Cleanup hasSession objectName uploadError tUpload tOuterCancel).isSome
      ↔ (uploadError.isSome ∨ (uploadError = none ∧ tOuterCancel.isSome))) ∧
    (∀ t, s3Cleanup hasSession objectName uploadError tUpload tOuterCancel = some t →
      tUpload ≤ t) := by
  unfold s3Cleanup
  rw [if_pos hobj]
  constructor
  · cases uploadError <;> cases tOuterCancel <;> simp
  · intro t ht
    cases uploadError with
    | some e => simp at ht; omega
    | none =>
      cases tOuterCancel with
      | none => simp at ht
      | some t2 => simp at ht; omega

/-- Witness for the C8 theorem: a failed upload with an established session;
the object is deleted, at the moment the upload finishes. -/
theorem s3_cleanup_delete_iff_witness :
    ((s3Cleanup true "tmp/object" (some .entityTooLarge) 3 none).isSome
      ↔ ((some UploadError.entityTooLarge : Option UploadError).isSome
          ∨ ((some UploadError.entityTooLarge : Option UploadError) = none
              ∧ (none : Option Nat).isSome))) ∧ 3 ≤ 3 :=
  ⟨(s3_cleanup_delete_iff true "tmp/object" (some .entityTooLarge) 3 none (by decide)).1,
   (s3_cleanup_delete_iff true "tmp/object" (some .entityTooLarge) 3 none (by decide)).2
     3 (by decide)⟩

/-- C4: for every multipart upload whose CompleteMultipartUpload POST
succeeded (status 200, decodable result with a remote ETag), the uploader
builds the composite checksum `hex(md5(concat of part digests)) ++ "-" ++ N`
from the recorded parts and the upload succeeds if and only if that checksum
equals the quote-stripped remote ETag case-insensitively; with
`SkipETagVerify` set, verification is skipped entirely and the completion
succeeds for any parts and any remote ETag. -/
theorem multipart_composite_etag_verification (md5 : List Byte → List Byte)
    (parts : List CMUPart) (rawETag checksum : String)
    (hdec : buildMultipartUploadETag md5 parts = .ok checksum) :
    ((multipartComplete md5 false parts (.resp 200 (.result rawETag))).uploadError = none
      ↔ equalFold checksum (extractETag rawETag) = true) ∧
    (∀ (parts2 : List CMUPart) (raw2 : String),
      (multipartComplete md5 true parts2 (.resp 200 (.result raw2))).uploadError = none) := by
  constructor
  · simp only [multipartComplete, verifyETag, hdec, compareMD5]
    split <;> simp_all
  · intro parts2 raw2
    simp [multipartComplete, verifyETag]

/-- Witness for the C4 theorem: one recorded part with digest `aa`; the
composite checksum evaluates concretely and the equivalence is obtained from
the theorem. -/
theorem multipart_composite_etag_verification_witness :
    ((multipartComplete (fun _ => [196]) false [{ partNumber := 1, etag := "aa" }]
        (.resp 200 (.result "\"C4-1\""))).uploadError = none
      ↔ equalFold "c4-1" (extractETag "\"C4-1\"") = true) ∧
    (∀ (parts2 : List CMUPart) (raw2 : String),
      (multipartComplete (fun _ => [196]) true parts2 (.resp 200 (.result raw2))).uploadError
        = none) :=
  (multipart_composite_etag_verification (fun _ => [196])
    [{ partNumber := 1, etag := "aa" }] "\"C4-1\"" "c4-1" rfl)

/-- C10: `SaveFileFromReader` never reads the native-client fields of the
ticket — two calls differing only in `UseWorkhorseClient`,
`RemoteTempObjectID` and `ObjectStorageConfig` return the same result — and
its remote sink is selected only from the multipart branch (`PartSize > 0`),
taking precedence, and the presigned-PUT branch (`PresignedPut` non-empty);
it never constructs the native S3 uploader. -/
theorem SaveFileFromReader_ignores_native_client_fields
    (md5 sha256 : List Byte → List Byte) (skipETagVerify : Bool) (env : SaveEnv)
    (opts : SaveFileOpts) (b : Bool) (rid : String) (osc : ObjectStorageConfig)
    (size : Int) (body : List Byte) :
    saveFileFromReader md5 sha256 skipETagVerify env
      { opts with useWorkhorseClient := b, remoteTempObjectID := rid,
                  objectStorageConfig := osc } size body
      = saveFileFromReader md5 sha256 skipETagVerify env opts size body ∧
    remoteKindOf opts
      = (if opts.IsMultipart then some .multipart
         else if opts.presignedPut ≠ "" then some .singlePut
         else none) := by
  constructor
  · rfl
  · unfold remoteKindOf SaveFileOpts.IsRemote
    by_cases h : opts.IsMultipart <;> simp [h]

/-- Helper: every file handler `saveFileFromReader` returns has `size` equal
to the observed byte count (every success branch of the source sets
`fh.Size` from the `io.Copy` result). -/
theorem saveFileFromReader_ok_size (md5 sha256 : List Byte → List Byte)
    (skipETagVerify : Bool) (env : SaveEnv) (opts : SaveFileOpts)
    (size : Int) (body : List Byte) (fh : FileHandler)
    (h : saveFileFromReader md5 sha256 skipETagVerify env opts size body = .ok fh) :
    fh.size = (body.length : Int) := by
  unfold saveFileFromReader at h
  repeat' split at h
  any_goals exact Except.noConfusion h
  all_goals rw [← Except.ok.inj h]

/-- C1: for every `SaveFileFromReader` call whose tee copy completes after
observing `body.length` bytes: a non-negative declared size differing from
the observed count makes the call return a `SizeError` (and no file handler);
and any returned file handler has `Size` equal to the observed count (in
particular when the declared size is the observed count or `-1`). -/
theorem SaveFileFromReader_size_contract (md5 sha256 : List Byte → List Byte)
    (skipETagVerify : Bool) (env : SaveEnv) (opts : SaveFileOpts)
    (size : Int) (body : List Byte)
    (hcopy : copyCompletes md5 skipETagVerify env opts body = true) :
    (0 ≤ size → size ≠ (body.length : Int) →
      saveFileFromReader md5 sha256 skipETagVerify env opts size body
        = .error (.sizeError size body.length)) ∧
    (∀ fh, saveFileFromReader md5 sha256 skipETagVerify env opts size body = .ok fh →
      fh.size = (body.length : Int)) := by
  refine ⟨?_, fun fh h => saveFileFromReader_ok_size md5 sha256 skipETagVerify
    env opts size body fh h⟩
  intro h0 hne
  have hm1 : ¬(size = -1) := by omega
  unfold copyCompletes at hcopy
  cases hro : remoteOutcome md5 skipETagVerify env opts body with
  | none =>
    rw [hro] at hcopy
    simp only [Bool.and_eq_true, Bool.not_eq_true', Bool.and_eq_false_iff,
      Option.isSome_none, Bool.false_or] at hcopy
    obtain ⟨⟨hle, hloc⟩, -⟩ := hcopy
    have hiss : env.localCreateError.isSome = false := by
      rcases hle with h | h
      · rw [h] at hloc; cases hloc
      · exact h
    simp [saveFileFromReader, hro, hloc, hiss, hne, hm1]
  | some ro =>
    rw [hro] at hcopy
    simp only [Bool.and_eq_true, Bool.not_eq_true', Bool.and_eq_false_iff,
      beq_iff_eq] at hcopy
    obtain ⟨⟨hle, -⟩, hce⟩ := hcopy
    rcases hle with h | h <;>
      simp [saveFileFromReader, hro, hce, hne, hm1, h]

/-- Witness for the C1 theorem: a 3-byte body declared as 5 bytes fails with
`SizeError 5 3`. -/
theorem SaveFileFromReader_size_contract_witness :
    saveFileFromReader (fun _ => []) (fun _ => []) true
      { putResp := some { status := 200, etagHeader := "E" } }
      { presignedPut := "https://put" } 5 [1, 2, 3]
      = .error (.sizeError 5 3) :=
  (SaveFileFromReader_size_contract (fun _ => []) (fun _ => []) true
    { putResp := some { status := 200, etagHeader := "E" } }
    { presignedPut := "https://put" } 5 [1, 2, 3] (by decide)).1
    (by decide) (by decide)

/-- Helper: when the body is longer than `partSize * partURLs.length` and
every part PUT succeeds, the multipart loop returns successfully with a
non-empty remainder. -/
theorem multipartLoop_overflow (md5 : List Byte → List Byte)
    (skipETagVerify : Bool) (env : PartEnv) (p : Nat)
    (hok : ∀ i c, (uploadPart md5 skipETagVerify c (env i)).isOk = true) :
    ∀ (urls : List String) (body : List Byte) (i₀ : Nat),
      p * urls.length < body.length →
      ∃ trace leftover,
        multipartLoop md5 skipETagVerify env p urls body i₀ = .ok (trace, leftover) ∧
        leftover ≠ [] := by
  intro urls
  induction urls with
  | nil =>
    intro body i₀ hbig
    refine ⟨[], body, rfl, ?_⟩
    intro hb
    rw [hb] at hbig
    simp at hbig
  | cons u us ih =>
    intro body i₀ hbig
    rw [List.length_cons, Nat.mul_succ] at hbig
    have hbody : body ≠ [] := by
      intro hb
      rw [hb] at hbig
      simp at hbig
    by_cases hc : (body.take p).isEmpty
    · exact ⟨[], body, by rw [multipartLoop, if_pos hc], hbody⟩
    · have hupl := hok i₀ (body.take p)
      cases hup : uploadPart md5 skipETagVerify (body.take p) (env i₀) with
      | error e =>
        rw [hup] at hupl
        exact absurd hupl (by simp [Except.isOk, Except.toBool])
      | ok etag =>
        have hlen : p * us.length < (body.drop p).length := by
          rw [List.length_drop]
          -- the loop can only be past `p` bytes if `p` bytes were available
          have htk : ¬(body.take p) = [] := by
            intro hb; rw [List.isEmpty_iff] at hc; exact hc hb
          omega
        obtain ⟨trace, leftover, heq, hne⟩ := ih (body.drop p) (i₀ + 1) hlen
        refine ⟨{ partNumber := i₀, url := u, content := body.take p, etag := etag } :: trace,
          leftover, ?_, hne⟩
        rw [multipartLoop, if_neg (by simp [hc]), hup, heq]

/-- C2: for every multipart upload whose body exceeds
`part_size × len(part_urls)` bytes (with every part PUT succeeding and the
local temp file, if any, created), the multipart goroutine drains the rest of
the pipe — no error reaches the tee copy — and records `ErrNotEnoughParts`;
`SaveFileFromReader`, receiving it from the remote writer's `Close`, returns
`ErrEntityTooLarge` and no file handler. -/
theorem multipart_not_enough_parts (md5 sha256 : List Byte → List Byte)
    (skipETagVerify : Bool) (env : SaveEnv) (opts : SaveFileOpts)
    (size : Int) (body : List Byte)
    (hmp : opts.IsMultipart = true)
    (hloc : env.localCreateError = none)
    (hok : ∀ i c, (uploadPart md5 skipETagVerify c (env.partResp i)).isOk = true)
    (hbig : opts.partSize.toNat * opts.presignedParts.length < body.length)
    (hsz : size = -1 ∨ size = (body.length : Int)) :
    (multipartRun md5 skipETagVerify env.partResp env.completeHTTP
        opts.presignedParts opts.partSize.toNat body).copyError = none ∧
    (multipartRun md5 skipETagVerify env.partResp env.completeHTTP
        opts.presignedParts opts.partSize.toNat body).uploadError
      = some .notEnoughParts ∧
    saveFileFromReader md5 sha256 skipETagVerify env opts size body
      = .error .entityTooLarge := by
  obtain ⟨trace, leftover, heq, hne⟩ := multipartLoop_overflow md5 skipETagVerify
    env.partResp opts.partSize.toNat hok opts.presignedParts body 1 hbig
  have hrun : multipartRun md5 skipETagVerify env.partResp env.completeHTTP
      opts.presignedParts opts.partSize.toNat body
      = { trace := trace, uploadError := some .notEnoughParts } := by
    unfold multipartRun
    rw [heq]
    dsimp only
    rw [if_pos (List.length_pos.mpr hne)]
  have hro : remoteOutcome md5 skipETagVerify env opts body
      = some { copyError := none, closeError := some .notEnoughParts, etag := "" } := by
    unfold remoteOutcome remoteKindOf
    rw [if_pos hmp, hrun]
  refine ⟨by rw [hrun], by rw [hrun], ?_⟩
  rcases hsz with h | h <;> subst h <;> simp [saveFileFromReader, hro, hloc]

/-- Witness for the C2 theorem: one presigned part URL of one byte each, a
two-byte body; the call returns `ErrEntityTooLarge`. -/
theorem multipart_not_enough_parts_witness :
    saveFileFromReader (fun _ => []) (fun _ => []) true
      { partResp := fun _ => some { status := 200, etagHeader := "x" } }
      { partSize := 1, presignedParts := ["https://u1"] } (-1) [7, 7]
      = .error .entityTooLarge :=
  (multipart_not_enough_parts (fun _ => []) (fun _ => []) true
    { partResp := fun _ => some { status := 200, etagHeader := "x" } }
    { partSize := 1, presignedParts := ["https://u1"] } (-1) [7, 7]
    (by decide) rfl (fun _ _ => rfl) (by decide) (Or.inl rfl)).2.2

/-- Helper: one step of the ceiling division `⌈n/p⌉` done by the part loop. -/
theorem ceil_div_succ (p n : Nat) (hp : 0 < p) (hn : 0 < n) :
    (n + p - 1) / p = ((n - p) + p - 1) / p + 1 := by
  have h1 : n + p - 1 = (n - 1) + p := by omega
  rw [h1, Nat.add_div_right _ hp]
  by_cases h : p ≤ n
  · have h2 : (n - p) + p - 1 = n - 1 := by omega
    rw [h2]
  · have h2 : n - p = 0 := by omega
    rw [h2, Nat.div_eq_of_lt (by omega), Nat.div_eq_of_lt (by omega)]

/-- Helper: unfolding of the expected trace over a non-empty body: the head
is part `i₀` with the first `p` bytes, the tail the expected trace of the
rest. -/
theorem expectedTrace_cons (md5 : List Byte → List Byte) (skipETagVerify : Bool)
    (env : PartEnv) (u : String) (us : List String) (p : Nat)
    (body : List Byte) (i₀ : Nat) (hp : 0 < p) (hb : body ≠ []) :
    expectedTrace md5 skipETagVerify env (u :: us) p body i₀
      = expectedPartPut md5 skipETagVerify env (u :: us) p body i₀ 0
        :: expectedTrace md5 skipETagVerify env us p (body.drop p) (i₀ + 1) := by
  unfold expectedTrace
  have hN : (body.length + p - 1) / p = ((body.drop p).length + p - 1) / p + 1 := by
    rw [List.length_drop]
    exact ceil_div_succ p body.length hp (List.length_pos.mpr hb)
  rw [hN, List.range_succ_eq_map, List.map_cons, List.map_map]
  congr 1
  apply List.map_congr_left
  intro k _
  have harg : i₀ + (k + 1) = (i₀ + 1) + k := by omega
  have hcontent : (body.drop ((k + 1) * p)).take p
      = ((body.drop p).drop (k * p)).take p := by
    have hmul : (k + 1) * p = p + k * p := by ring
    rw [List.drop_drop, hmul]
  simp only [Function.comp_apply]
  unfold expectedPartPut partSliceAt
  rw [harg, hcontent, List.getD_cons_succ]

/-- Helper: the closed form of the multipart part loop when the body is fully
covered by the available part URLs and every part PUT succeeds: the loop
performs exactly `⌈n/p⌉` part PUTs, the `k`-th carrying the `k`-th slice of
the body, and leaves nothing unread. -/
theorem multipartLoop_closed_form (md5 : List Byte → List Byte)
    (skipETagVerify : Bool) (env : PartEnv) (p : Nat) (hp : 0 < p)
    (hok : ∀ i c, (uploadPart md5 skipETagVerify c (env i)).isOk = true) :
    ∀ (urls : List String) (body : List Byte) (i₀ : Nat),
      (body.length + p - 1) / p ≤ urls.length →
      multipartLoop md5 skipETagVerify env p urls body i₀
        = .ok (expectedTrace md5 skipETagVerify env urls p body i₀, []) := by
  intro urls
  induction urls with
  | nil =>
    intro body i₀ hle
    have hN : (body.length + p - 1) / p = 0 := Nat.le_zero.mp (by simpa using hle)
    have hb0 : body.length = 0 := by
      by_contra hne
      have h1 : 1 ≤ (body.length + p - 1) / p :=
        (Nat.le_div_iff_mul_le hp).mpr (by omega)
      omega
    have h0 : (p - 1) / p = 0 := Nat.div_eq_of_lt (by omega)
    rw [List.length_eq_zero.mp hb0]
    simp [multipartLoop, expectedTrace, h0]
  | cons u us ih =>
    intro body i₀ hle
    by_cases hb : body = []
    · subst hb
      have h0 : (p - 1) / p = 0 := Nat.div_eq_of_lt (by omega)
      simp [multipartLoop, expectedTrace, h0]
    · have htake : body.take p ≠ [] := by
        simp only [ne_eq, List.take_eq_nil_iff]
        push_neg
        exact ⟨by omega, hb⟩
      have hupl := hok i₀ (body.take p)
      cases hup : uploadPart md5 skipETagVerify (body.take p) (env i₀) with
      | error e =>
        rw [hup] at hupl
        exact absurd hupl (by simp [Except.isOk, Except.toBool])
      | ok etag =>
        have hrec : ((body.drop p).length + p - 1) / p ≤ us.length := by
          have h1 := ceil_div_succ p body.length hp (List.length_pos.mpr hb)
          rw [List.length_drop]
          rw [List.length_cons] at hle
          omega
        have hhead : expectedPartPut md5 skipETagVerify env (u :: us) p body i₀ 0
            = { partNumber := i₀, url := u, content := body.take p, etag := etag } := by
          unfold expectedPartPut partSliceAt
          simp [hup]
        rw [expectedTrace_cons md5 skipETagVerify env u us p body i₀ hp hb, hhead]
        rw [multipartLoop, if_neg (by simp [htake]), hup,
          ih (body.drop p) (i₀ + 1) hrec]

/-- C5: for every multipart upload of a non-empty body of `n` bytes with part
size `p > 0`, at least `⌈n/p⌉` part URLs and all part PUTs succeeding: the
loop PUTs exactly `⌈n/p⌉` parts and leaves no byte unread; part `k+1`
(0-based `k`) carries bytes `k·p` up to `min((k+1)·p, n)` (the content
buffered to the on-disk temporary file), is sent to `part_urls[k]`, and its
returned ETag is recorded with the 1-based part number `k+1`; an iteration
that reads zero bytes ends the loop without uploading. -/
theorem multipart_part_framing (md5 : List Byte → List Byte)
    (skipETagVerify : Bool) (env : PartEnv) (p : Nat) (urls : List String)
    (body : List Byte) (hp : 0 < p)
    (hurls : (body.length + p - 1) / p ≤ urls.length)
    (hok : ∀ i c, (uploadPart md5 skipETagVerify c (env i)).isOk = true) :
    multipartLoop md5 skipETagVerify env p urls body 1
      = .ok (expectedTrace md5 skipETagVerify env urls p body 1, []) ∧
    (expectedTrace md5 skipETagVerify env urls p body 1).length
      = (body.length + p - 1) / p ∧
    (∀ k, k < (body.length + p - 1) / p →
      ((expectedTrace md5 skipETagVerify env urls p body 1).getD k
          { partNumber := 0, url := "", content := [], etag := "" }).partNumber = k + 1 ∧
      ((expectedTrace md5 skipETagVerify env urls p body 1).getD k
          { partNumber := 0, url := "", content := [], etag := "" }).url
        = urls.getD k "" ∧
      ((expectedTrace md5 skipETagVerify env urls p body 1).getD k
          { partNumber := 0, url := "", content := [], etag := "" }).content
        = (body.drop (k * p)).take p ∧
      uploadPart md5 skipETagVerify ((body.drop (k * p)).take p) (env (k + 1))
        = .ok ((expectedTrace md5 skipETagVerify env urls p body 1).getD k
            { partNumber := 0, url := "", content := [], etag := "" }).etag) ∧
    (∀ (u : String) (us : List String) (rest : List Byte) (i : Nat),
      (rest.take p).isEmpty = true →
      multipartLoop md5 skipETagVerify env p (u :: us) rest i = .ok ([], rest)) := by
  have hget : ∀ k, k < (body.length + p - 1) / p →
      (expectedTrace md5 skipETagVerify env urls p body 1).getD k
          { partNumber := 0, url := "", content := [], etag := "" }
        = expectedPartPut md5 skipETagVerify env urls p body 1 k := by
    intro k hk
    unfold expectedTrace
    rw [List.getD_eq_getElem?_getD, List.getElem?_map, List.getElem?_range hk]
    rfl
  refine ⟨multipartLoop_closed_form md5 skipETagVerify env p hp hok urls body 1 hurls,
    by simp [expectedTrace], ?_, ?_⟩
  · intro k hk
    rw [hget k hk]
    unfold expectedPartPut partSliceAt
    refine ⟨Nat.add_comm 1 k, rfl, rfl, ?_⟩
    have hupl := hok (1 + k) ((body.drop (k * p)).take p)
    cases hup : uploadPart md5 skipETagVerify ((body.drop (k * p)).take p) (env (1 + k)) with
    | error e =>
      rw [hup] at hupl
      exact absurd hupl (by simp [Except.isOk, Except.toBool])
    | ok etag =>
      rw [Nat.add_comm k 1, hup]
  · intro u us rest i hempty
    rw [multipartLoop, if_pos hempty]

/-- Witness for the C5 theorem: a 3-byte body with part size 2 over two part
URLs: two parts are PUT ([1,2] then [3]) and nothing is left unread. -/
theorem multipart_part_framing_witness :
    multipartLoop (fun _ => []) true
        (fun _ => some { status := 200, etagHeader := "\"E\"" }) 2
        ["https://a", "https://b"] [1, 2, 3] 1
      = .ok (expectedTrace (fun _ => []) true
          (fun _ => some { status := 200, etagHeader := "\"E\"" })
          ["https://a", "https://b"] 2 [1, 2, 3] 1, []) ∧
    (expectedTrace (fun _ => []) true
        (fun _ => some { status := 200, etagHeader := "\"E\"" })
        ["https://a", "https://b"] 2 [1, 2, 3] 1).length = 2 :=
  have h := multipart_part_framing (fun _ => []) true
    (fun _ => some { status := 200, etagHeader := "\"E\"" }) 2
    ["https://a", "https://b"] [1, 2, 3] (by decide) (by decide) (fun _ _ => rfl)
  ⟨h.1, h.2.1⟩

/-- C6 (supporting evidence): inside the `objectstore` layer the
skip-ETag-verify flag does exist and is forwarded — a per-part PUT whose ETag
mismatches the part's MD5 fails when the session's flag is false and succeeds
when it is true. The ticket layer, however, cannot set it: `SaveFileOpts`
(embedded above with exactly the source's fields) has no such field and
`SaveFileFromReader` passes none to the constructors. -/
theorem multipart_skip_flag_controls_part_verification :
    uploadPart (fun _ => [171]) false [1] (some { status := 200, etagHeader := "zz" })
      = .error (.etagMismatch "ab" "zz") ∧
    uploadPart (fun _ => [171]) true [1] (some { status := 200, etagHeader := "zz" })
      = .ok "zz" :=
  ⟨rfl, rfl⟩

end Workhorse
